import Mathlib

/-!
Shallow embedding of `src/mcp_sse_server.py` (BigQuery MCP server).

The Python values flowing through the server are JSON values (the request
body is `json.loads` output, responses are dicts serialized with
`json.dumps`).  We model them with the inductive `Json` below; Python dicts
become association lists (insertion order preserved, as in Python).  The
BigQuery client is an oracle (`Client`): each SDK call either returns a
value or raises, modelled as `Except String`.  Python `try/except` blocks
become `match` on `Except`; a Lean function returns `Except String Json`
exactly when the corresponding Python function can let an exception escape.
Numbers are modelled as integers (the claims only involve integral JSON
numbers); `str.upper()` is modelled for ASCII.
-/

set_option autoImplicit false

/-- A JSON value, as produced by `json.loads`. Objects are association
lists in insertion order. -/
inductive Json where
  | null : Json
  | bool : Bool → Json
  | num : Int → Json
  | str : String → Json
  | arr : List Json → Json
  | obj : List (String × Json) → Json

mutual

/-- Equality test on JSON values (Python `==` on parsed JSON). -/
def Json.beq : Json → Json → Bool
  | Json.null, Json.null => true
  | Json.bool a, Json.bool b => a == b
  | Json.num a, Json.num b => a == b
  | Json.str a, Json.str b => a == b
  | Json.arr a, Json.arr b => beqList a b
  | Json.obj a, Json.obj b => beqObj a b
  | _, _ => false

def beqList : List Json → List Json → Bool
  | [], [] => true
  | a :: as2, b :: bs2 => Json.beq a b && beqList as2 bs2
  | _, _ => false

def beqObj : List (String × Json) → List (String × Json) → Bool
  | [], [] => true
  | (k1, v1) :: as2, (k2, v2) :: bs2 => k1 == k2 && Json.beq v1 v2 && beqObj as2 bs2
  | _, _ => false

end

instance : BEq Json := ⟨Json.beq⟩

/-- First-match lookup in an association list (Python dict lookup; parsed
JSON objects have distinct keys). -/
def jlookup (kvs : List (String × Json)) (k : String) : Option Json :=
  match kvs with
  | [] => none
  | (k2, v) :: rest => if k2 = k then some v else jlookup rest k

/-- Python `d.get(k)`: `None` when the key is absent; raises
`AttributeError` when the receiver is not a dict. -/
def jget (j : Json) (k : String) : Except String Json :=
  match j with
  | Json.obj kvs => Except.ok ((jlookup kvs k).getD Json.null)
  | _ => Except.error "AttributeError: get"

/-- Python `d.get(k, default)`. -/
def jgetD (j : Json) (k : String) (d : Json) : Except String Json :=
  match j with
  | Json.obj kvs => Except.ok ((jlookup kvs k).getD d)
  | _ => Except.error "AttributeError: get"

/-- Python truthiness of a JSON value: `None`, `False`, `0`, `""`, `[]`,
and an empty dict are falsy. -/
def truthy (j : Json) : Bool :=
  match j with
  | Json.null => false
  | Json.bool b => b
  | Json.num n => n != 0
  | Json.str s => s != ""
  | Json.arr xs => !xs.isEmpty
  | Json.obj kvs => !kvs.isEmpty

mutual

/-- Python `repr` of a JSON value (used by `str` on containers). String
escaping is not modelled. -/
def pyRepr (j : Json) : String :=
  match j with
  | Json.null => "None"
  | Json.bool b => if b then "True" else "False"
  | Json.num n => toString n
  | Json.str s => "\x27" ++ s ++ "\x27"
  | Json.arr xs => "[" ++ pyReprList xs ++ "]"
  | Json.obj kvs => "\x7b" ++ pyReprObj kvs ++ "\x7d"

def pyReprList (xs : List Json) : String :=
  match xs with
  | [] => ""
  | [x] => pyRepr x
  | x :: rest => pyRepr x ++ ", " ++ pyReprList rest

def pyReprObj (kvs : List (String × Json)) : String :=
  match kvs with
  | [] => ""
  | [(k, v)] => "\x27" ++ k ++ "\x27: " ++ pyRepr v
  | (k, v) :: rest => "\x27" ++ k ++ "\x27: " ++ pyRepr v ++ ", " ++ pyReprObj rest

end

/-- Python `str` of a JSON value (as interpolated by f-strings). -/
def pyStr (j : Json) : String :=
  match j with
  | Json.str s => s
  | _ => pyRepr j

mutual

/-- `json.dumps` with default separators (`", "` and `": "`); indentation
and string escaping are abstracted away (no claim depends on them). -/
def dumps (j : Json) : String :=
  match j with
  | Json.null => "null"
  | Json.bool b => if b then "true" else "false"
  | Json.num n => toString n
  | Json.str s => "\"" ++ s ++ "\""
  | Json.arr xs => "[" ++ dumpsList xs ++ "]"
  | Json.obj kvs => "\x7b" ++ dumpsObj kvs ++ "\x7d"

def dumpsList (xs : List Json) : String :=
  match xs with
  | [] => ""
  | [x] => dumps x
  | x :: rest => dumps x ++ ", " ++ dumpsList rest

def dumpsObj (kvs : List (String × Json)) : String :=
  match kvs with
  | [] => ""
  | [(k, v)] => "\"" ++ k ++ "\": " ++ dumps v
  | (k, v) :: rest => "\"" ++ k ++ "\": " ++ dumps v ++ ", " ++ dumpsObj rest

end

/-- ASCII uppercase of one character (`str.upper` restricted to ASCII). -/
def asciiUpper (c : Char) : Char :=
  if 97 ≤ c.toNat && c.toNat ≤ 122 then Char.ofNat (c.toNat - 32) else c

/-- Python `s.upper()` (ASCII fragment). -/
def pyUpperStr (s : String) : String :=
  String.mk (s.data.map asciiUpper)

/-- Does `hay` start with `needle`? -/
def listStartsWith : List Char → List Char → Bool
  | _, [] => true
  | [], _ :: _ => false
  | c :: cs, d :: ds => c = d && listStartsWith cs ds

/-- Does `needle` occur as a contiguous substring of `hay`? -/
def subAt : List Char → List Char → Bool
  | [], needle => needle.isEmpty
  | hay@(_ :: rest), needle => listStartsWith hay needle || subAt rest needle

/-- Python `needle in hay` for strings. -/
def containsSub (hay needle : String) : Bool :=
  subAt hay.data needle.data

/-- An item of `client.list_datasets()`. -/
structure DatasetRef where
  dataset_id : String
  project : String

/-- The record returned by `client.get_dataset(...)`. Fields that the code
only tests for truthiness or serializes are kept as JSON values. -/
structure DatasetMeta where
  location : Json
  created : Json
  description : Json
  labels : Json

/-- An item of `client.list_tables(...)`. -/
structure TableItem where
  table_id : String
  table_type : Json
  project : String
  dataset_id : String
  created : Json
  num_rows : Json

/-- One schema field of a table (`table.schema` item). -/
structure TField where
  name : String
  field_type : Json
  mode : Json
  description : Json

/-- The record returned by `client.get_table(...)`. -/
structure Table where
  table_id : String
  dataset_id : String
  project : String
  num_rows : Json
  schema : List TField
  created : Json
  modified : Json
  description : Json

/-- The BigQuery client handle, as an oracle: every SDK call either
returns a value or raises (`Except.error` carries `str(e)`). -/
structure Client where
  query : String → Except String (List Json)
  list_datasets : Except String (List DatasetRef)
  get_dataset : String → Except String DatasetMeta
  dataset : Json → Except String String
  list_tables : String → Except String (List TableItem)
  table : String → Json → Except String String
  get_table : String → Except String Table

/-- The Content Envelope `{content: [{type: "text", text: t}]}`. -/
def contentEnvelope (t : String) : Json :=
  Json.obj [("content", Json.arr [Json.obj [("type", Json.str "text"),
    ("text", Json.str t)]])]

/-- Lines 193-194: `if 'LIMIT' not in query.upper() and limit:
query = f"{query} LIMIT {limit}"`. -/
def finalQuery (s : String) (limitv : Json) : String :=
  if !containsSub (pyUpperStr s) "LIMIT" && truthy limitv then
    s ++ " LIMIT " ++ pyStr limitv
  else s

/-- Lines 196-219: run the (possibly rewritten) query on the client and
render the rows, catching client faults into an error envelope. -/
def queryOutcome (c : Client) (q : String) : Json :=
  match c.query q with
  | Except.ok rows =>
    contentEnvelope ("Query eseguita con successo. Righe restituite: " ++
      toString rows.length ++ "\n\nRisultati:\n" ++ dumps (Json.arr rows))
  | Except.error e =>
    contentEnvelope ("Errore nell\x27esecuzione della query: " ++ e)

/-- The `try` block of `query_bigquery`: a non-string query makes
`query.upper()` raise, which the same `except` turns into the error
envelope. -/
def queryTry (c : Client) (qv limitv : Json) : Json :=
  match qv with
  | Json.str s => queryOutcome c (finalQuery s limitv)
  | _ => contentEnvelope ("Errore nell\x27esecuzione della query: " ++
      "AttributeError: upper")

/-- `query_bigquery(args)` (lines 187-219). The two `args.get` calls
happen before the `try` block, so their faults escape the function. -/
def queryBigquery (c : Client) (args : Json) : Except String Json := do
  let qv ← jgetD args "query" (Json.str "")
  let limitv ← jgetD args "limit" (Json.num 100)
  pure (queryTry c qv limitv)

/-- The extended per-dataset record (lines 230-237). -/
def extendedRecord (d : DatasetRef) (full : DatasetMeta) : Json :=
  Json.obj [("dataset_id", Json.str d.dataset_id),
    ("project", Json.str d.project),
    ("location", full.location),
    ("created", if truthy full.created then Json.str (pyStr full.created)
      else Json.null),
    ("description", if truthy full.description then full.description
      else Json.str "Nessuna descrizione"),
    ("labels", if truthy full.labels then full.labels else Json.obj [])]

/-- The reduced per-dataset record used when `get_dataset` faults
(lines 239-244). -/
def reducedRecord (d : DatasetRef) (e : String) : Json :=
  Json.obj [("dataset_id", Json.str d.dataset_id),
    ("project", Json.str d.project),
    ("full_name", Json.str (d.project ++ "." ++ d.dataset_id)),
    ("error", Json.str ("Impossibile ottenere dettagli: " ++ e))]

/-- Per-dataset `try/except` (lines 228-244). -/
def datasetEntry (c : Client) (d : DatasetRef) : Json :=
  match c.get_dataset d.dataset_id with
  | Except.ok full => extendedRecord d full
  | Except.error e => reducedRecord d e

/-- The `dataset_info` list (lines 225-244). -/
def datasetInfo (c : Client) (ds : List DatasetRef) : List Json :=
  ds.map (datasetEntry c)

/-- `list_datasets_impl()` (lines 221-262); the outer `try` catches the
`list_datasets` fault itself. -/
def listDatasetsImpl (c : Client) : Json :=
  match c.list_datasets with
  | Except.ok ds =>
    contentEnvelope ("Dataset trovati: " ++
      toString (datasetInfo c ds).length ++ "\n\n" ++
      dumps (Json.arr (datasetInfo c ds)))
  | Except.error e =>
    contentEnvelope ("Errore nel recuperare i dataset: " ++ e)

/-- One table record (lines 274-288): `created` is added only when truthy,
`num_rows` only when not `None`. -/
def tableEntry (t : TableItem) : Json :=
  Json.obj ([("table_id", Json.str t.table_id),
      ("table_type", t.table_type),
      ("full_name", Json.str (t.project ++ "." ++ t.dataset_id ++ "." ++
        t.table_id))]
    ++ (if truthy t.created then [("created", Json.str (pyStr t.created))]
        else [])
    ++ (if t.num_rows == Json.null then []
        else [("num_rows", t.num_rows)]))

/-- Lines 269-270: `client.dataset(dataset_id)` then
`client.list_tables(ref)`. -/
def listTablesAttempt (c : Client) (did : Json) :
    Except String (List TableItem) := do
  let r ← c.dataset did
  c.list_tables r

/-- The `try` block of `list_tables`, with its `except` (lines 268-306). -/
def listTablesOutcome (c : Client) (did : Json) : Json :=
  match listTablesAttempt c did with
  | Except.ok ts =>
    contentEnvelope ("Tabelle nel dataset " ++ pyStr did ++ ": " ++
      toString (ts.map tableEntry).length ++ "\n\n" ++
      dumps (Json.arr (ts.map tableEntry)))
  | Except.error e =>
    contentEnvelope ("Errore nel recuperare le tabelle: " ++ e)

/-- `list_tables(args)` (lines 264-306); `args.get` precedes the `try`. -/
def listTables (c : Client) (args : Json) : Except String Json := do
  let did ← jget args "dataset_id"
  pure (listTablesOutcome c did)

/-- One schema-field record (lines 318-324). -/
def fieldEntry (f : TField) : Json :=
  Json.obj [("name", Json.str f.name),
    ("type", f.field_type),
    ("mode", f.mode),
    ("description", if truthy f.description then f.description
      else Json.str "Nessuna descrizione")]

/-- The `table_info` record (lines 326-335). -/
def tableInfoJson (t : Table) : Json :=
  Json.obj [("table_id", Json.str t.table_id),
    ("dataset_id", Json.str t.dataset_id),
    ("project", Json.str t.project),
    ("num_rows", t.num_rows),
    ("schema", Json.arr (t.schema.map fieldEntry)),
    ("created", if truthy t.created then Json.str (pyStr t.created)
      else Json.null),
    ("modified", if truthy t.modified then Json.str (pyStr t.modified)
      else Json.null),
    ("description", if truthy t.description then t.description
      else Json.str "Nessuna descrizione")]

/-- Lines 314-315: `client.dataset(did).table(tid)` then
`client.get_table(ref)`. -/
def describeAttempt (c : Client) (did tid : Json) : Except String Table := do
  let r ← c.dataset did
  let tr ← c.table r tid
  c.get_table tr

/-- The `try` block of `describe_table`, with its `except`
(lines 313-353). -/
def describeOutcome (c : Client) (did tid : Json) : Json :=
  match describeAttempt c did tid with
  | Except.ok t =>
    contentEnvelope ("Descrizione tabella " ++ pyStr did ++ "." ++
      pyStr tid ++ ":\n\n" ++ dumps (tableInfoJson t))
  | Except.error e =>
    contentEnvelope ("Errore nel descrivere la tabella: " ++ e)

/-- `describe_table(args)` (lines 308-353); the two `args.get` calls
precede the `try`. -/
def describeTable (c : Client) (args : Json) : Except String Json := do
  let did ← jget args "dataset_id"
  let tid ← jget args "table_id"
  pure (describeOutcome c did tid)

/-- `call_tool(name, arguments)` (lines 169-185): dispatch on the tool
name; the `except` re-raises, so faults pass through unchanged. -/
def callTool (c : Client) (name arguments : Json) : Except String Json :=
  if name == Json.str "query_bigquery" then queryBigquery c arguments
  else if name == Json.str "list_datasets" then
    Except.ok (listDatasetsImpl c)
  else if name == Json.str "list_tables" then listTables c arguments
  else if name == Json.str "describe_table" then describeTable c arguments
  else Except.error ("Strumento non trovato: " ++ pyStr name)

/-- The static `initialize` result (lines 52-65). -/
def initResult : Json :=
  Json.obj [("protocolVersion", Json.str "2024-11-05"),
    ("capabilities", Json.obj [("tools", Json.obj [])]),
    ("serverInfo", Json.obj [("name", Json.str "bigquery-mcp-server"),
      ("version", Json.str "1.0.0")])]

/-- The four static tool descriptors (lines 72-132). -/
def toolDescriptors : List Json :=
  [Json.obj [("name", Json.str "query_bigquery"),
    ("description", Json.str "Esegue una query SQL su BigQuery"),
    ("inputSchema", Json.obj [("type", Json.str "object"),
      ("properties", Json.obj [
        ("query", Json.obj [("type", Json.str "string"),
          ("description", Json.str "Query SQL da eseguire")]),
        ("limit", Json.obj [("type", Json.str "number"),
          ("description",
            Json.str "Limite di righe da restituire (default: 100)"),
          ("default", Json.num 100)])]),
      ("required", Json.arr [Json.str "query"])])],
  Json.obj [("name", Json.str "list_datasets"),
    ("description",
      Json.str "Lista tutti i dataset disponibili nel progetto"),
    ("inputSchema", Json.obj [("type", Json.str "object"),
      ("properties", Json.obj [])])],
  Json.obj [("name", Json.str "list_tables"),
    ("description", Json.str "Lista le tabelle in un dataset"),
    ("inputSchema", Json.obj [("type", Json.str "object"),
      ("properties", Json.obj [
        ("dataset_id", Json.obj [("type", Json.str "string"),
          ("description", Json.str "ID del dataset")])]),
      ("required", Json.arr [Json.str "dataset_id"])])],
  Json.obj [("name", Json.str "describe_table"),
    ("description", Json.str "Descrive la struttura di una tabella"),
    ("inputSchema", Json.obj [("type", Json.str "object"),
      ("properties", Json.obj [
        ("dataset_id", Json.obj [("type", Json.str "string"),
          ("description", Json.str "ID del dataset")]),
        ("table_id", Json.obj [("type", Json.str "string"),
          ("description", Json.str "ID della tabella")])]),
      ("required",
        Json.arr [Json.str "dataset_id", Json.str "table_id"])])]]

/-- The `tools/list` result object (lines 71-133). -/
def toolsListResult : Json :=
  Json.obj [("tools", Json.arr toolDescriptors)]

/-- A success response `{jsonrpc, id, result}` (the literal shape used at
lines 52, 68, 142). -/
def okResp (rid : Json) (result : Json) : Json :=
  Json.obj [("jsonrpc", Json.str "2.0"), ("id", rid), ("result", result)]

/-- An error response `{jsonrpc, id, error: {code, message}}` (the literal
shape used at lines 149, 160). -/
def errResp (rid : Json) (code : Int) (msg : String) : Json :=
  Json.obj [("jsonrpc", Json.str "2.0"), ("id", rid),
    ("error", Json.obj [("code", Json.num code),
      ("message", Json.str msg)])]

/-- The `try` block of `handle_mcp_request` (lines 44-156). -/
def handleBody (c : Client) (request : Json) : Except String Json := do
  let method ← jget request "method"
  let params ← jgetD request "params" (Json.obj [])
  let rid ← jget request "id"
  if method == Json.str "initialize" then
    pure (okResp rid initResult)
  else if method == Json.str "tools/list" then
    pure (okResp rid toolsListResult)
  else if method == Json.str "tools/call" then do
    let toolName ← jget params "name"
    let arguments ← jgetD params "arguments" (Json.obj [])
    let result ← callTool c toolName arguments
    pure (okResp rid result)
  else
    pure (errResp rid (-32601) ("Metodo non trovato: " ++ pyStr method))

/-- `handle_mcp_request(request)` (lines 42-167): the top-level `except`
builds a `-32603` response, but itself calls `request.get('id')`, so a
non-dict request makes the handler raise. -/
def handleMcpRequest (c : Client) (request : Json) : Except String Json :=
  match handleBody c request with
  | Except.ok r => Except.ok r
  | Except.error e =>
    match jget request "id" with
    | Except.ok rid =>
      Except.ok (errResp rid (-32603) ("Errore interno del server: " ++ e))
    | Except.error e2 => Except.error e2

/-- The request body of `POST /sse`, abstracted as its parse outcome:
empty bytes, a `json.loads` failure (with the exception text), or the
parsed JSON value. -/
inductive Body where
  | empty : Body
  | invalid : String → Body
  | parsed : Json → Body

/-- The error frame emitted by the `except` of `event_stream`
(lines 416-426). -/
def sseErrorFrame (e : String) : String :=
  "data: " ++ dumps (Json.obj [("jsonrpc", Json.str "2.0"),
    ("id", Json.null),
    ("error", Json.obj [("code", Json.num (-32603)),
      ("message", Json.str ("Errore del server SSE: " ++ e))])]) ++ "\n\n"

/-- `event_stream()` inside `sse_endpoint` (lines 400-426): the list of
SSE frames yielded for one request. -/
def eventStream (c : Client) (b : Body) : List String :=
  match b with
  | Body.empty =>
    ["data: " ++ dumps (Json.obj [("type", Json.str "connected")]) ++
      "\n\n"]
  | Body.invalid e => [sseErrorFrame e]
  | Body.parsed j =>
    match handleMcpRequest c j with
    | Except.ok resp => ["data: " ++ dumps resp ++ "\n\n"]
    | Except.error e => [sseErrorFrame e]

/-- Key lookup on a JSON object (observer used by the theorems). -/
def getKey (j : Json) (k : String) : Option Json :=
  match j with
  | Json.obj kvs => jlookup kvs k
  | _ => none

/-- Does a JSON object carry the key `k`? -/
def hasKey (j : Json) (k : String) : Bool :=
  (getKey j k).isSome

/-- The `error.code` of a response, when present. -/
def errCodeOf (r : Json) : Option Json :=
  match getKey r "error" with
  | some e => getKey e "code"
  | none => none

/-- The `error.message` of a response, when present. -/
def errMsgOf (r : Json) : Option Json :=
  match getKey r "error" with
  | some e => getKey e "message"
  | none => none

/-- A concrete client on which every call succeeds with empty data,
except the metadata fetches (used to instantiate theorems). -/
def okClient : Client where
  query := fun _ => Except.ok []
  list_datasets := Except.ok []
  get_dataset := fun _ => Except.error "NotFound"
  dataset := fun _ => Except.ok "ref"
  table := fun r _ => Except.ok (r ++ ".t")
  list_tables := fun _ => Except.ok []
  get_table := fun _ => Except.error "NotFound"

/-- A concrete client whose every call fails with a marker carrying the
argument it was invoked on (observes what reaches the client). -/
def markClient : Client where
  query := fun q => Except.error ("EXEC:" ++ q)
  list_datasets := Except.error "EXEC"
  get_dataset := fun d => Except.error ("EXEC:" ++ d)
  dataset := fun j => Except.error ("EXEC:" ++ pyStr j)
  table := fun _ _ => Except.error "EXEC"
  list_tables := fun r => Except.error ("EXEC:" ++ r)
  get_table := fun r => Except.error ("EXEC:" ++ r)

/-- A client with exactly one dataset whose metadata fetch fails. -/
def oneDsClient : Client :=
  { okClient with
    list_datasets := Except.ok [⟨"ds1", "proj"⟩],
    get_dataset := fun _ => Except.error "boom" }

theorem json_beq_str_iff (m : Json) (s : String) :
    (m == Json.str s) = true ↔ m = Json.str s := by
  cases m <;> simp [BEq.beq, Json.beq]

theorem json_beq_str_false {m : Json} {s : String} (h : m ≠ Json.str s) :
    (m == Json.str s) = false := by
  rw [← Bool.not_eq_true]
  intro hb
  exact h ((json_beq_str_iff m s).mp hb)

theorem queryOutcome_env (c : Client) (q : String) :
    ∃ t, queryOutcome c q = contentEnvelope t := by
  unfold queryOutcome
  cases c.query q with
  | ok rows => exact ⟨_, rfl⟩
  | error e => exact ⟨_, rfl⟩

theorem queryTry_env (c : Client) (qv lv : Json) :
    ∃ t, queryTry c qv lv = contentEnvelope t := by
  cases qv with
  | str s => exact queryOutcome_env c (finalQuery s lv)
  | null => exact ⟨_, rfl⟩
  | bool b => exact ⟨_, rfl⟩
  | num n => exact ⟨_, rfl⟩
  | arr xs => exact ⟨_, rfl⟩
  | obj kvs => exact ⟨_, rfl⟩

theorem listDatasetsImpl_env (c : Client) :
    ∃ t, listDatasetsImpl c = contentEnvelope t := by
  unfold listDatasetsImpl
  cases c.list_datasets with
  | ok ds => exact ⟨_, rfl⟩
  | error e => exact ⟨_, rfl⟩

theorem listTablesOutcome_env (c : Client) (did : Json) :
    ∃ t, listTablesOutcome c did = contentEnvelope t := by
  unfold listTablesOutcome
  cases listTablesAttempt c did with
  | ok ts => exact ⟨_, rfl⟩
  | error e => exact ⟨_, rfl⟩

theorem describeOutcome_env (c : Client) (did tid : Json) :
    ∃ t, describeOutcome c did tid = contentEnvelope t := by
  unfold describeOutcome
  cases describeAttempt c did tid with
  | ok t => exact ⟨_, rfl⟩
  | error e => exact ⟨_, rfl⟩

theorem jget_obj (kvs : List (String × Json)) (k : String) :
    jget (Json.obj kvs) k = Except.ok ((jlookup kvs k).getD Json.null) := rfl

theorem jgetD_obj (kvs : List (String × Json)) (k : String) (d : Json) :
    jgetD (Json.obj kvs) k d = Except.ok ((jlookup kvs k).getD d) := rfl

theorem handleBody_ok_shape (c : Client) (kvs : List (String × Json))
    (r : Json) (h : handleBody c (Json.obj kvs) = Except.ok r) :
    (∃ res, r = okResp ((jlookup kvs "id").getD Json.null) res) ∨
    (∃ msg, r = errResp ((jlookup kvs "id").getD Json.null) (-32601) msg) := by
  unfold handleBody at h
  rw [jget_obj, jgetD_obj, jget_obj] at h
  simp only [Bind.bind, Except.bind] at h
  set m := (jlookup kvs "method").getD Json.null with hm
  set params := (jlookup kvs "params").getD (Json.obj []) with hparams
  by_cases h1 : (m == Json.str "initialize") = true
  · rw [h1] at h
    simp only [if_true, pure, Except.pure, Except.ok.injEq] at h
    exact Or.inl ⟨_, h.symm⟩
  · rw [Bool.not_eq_true] at h1
    rw [h1] at h
    simp only [Bool.false_eq_true, if_false] at h
    by_cases h2 : (m == Json.str "tools/list") = true
    · rw [h2] at h
      simp only [if_true, pure, Except.pure, Except.ok.injEq] at h
      exact Or.inl ⟨_, h.symm⟩
    · rw [Bool.not_eq_true] at h2
      rw [h2] at h
      simp only [Bool.false_eq_true, if_false] at h
      by_cases h3 : (m == Json.str "tools/call") = true
      · rw [h3] at h
        simp only [if_true] at h
        cases hp : jget params "name" with
        | error e =>
          rw [hp] at h
          simp at h
        | ok toolName =>
          rw [hp] at h
          simp only [Except.bind] at h
          cases hq : jgetD params "arguments" (Json.obj []) with
          | error e =>
            rw [hq] at h
            simp at h
          | ok arguments =>
            rw [hq] at h
            simp only [Except.bind] at h
            cases hr : callTool c toolName arguments with
            | error e =>
              rw [hr] at h
              simp at h
            | ok result =>
              rw [hr] at h
              simp only [pure, Except.pure, Except.ok.injEq] at h
              exact Or.inl ⟨_, h.symm⟩
      · rw [Bool.not_eq_true] at h3
        rw [h3] at h
        simp only [Bool.false_eq_true, if_false, pure, Except.pure,
          Except.ok.injEq] at h
        exact Or.inr ⟨_, h.symm⟩

/-- Claim C1 (counterexample): with `query = "SELECT 1"` and `limit = 0`
the query does not contain `LIMIT` after upper-casing, yet the string
executed against the client is `"SELECT 1"` unchanged (the marker client
records it), not `"SELECT 1 LIMIT 0"` as the claim requires. -/
theorem query_limit_claim_cex :
    containsSub (pyUpperStr "SELECT 1") "LIMIT" = false ∧
    queryBigquery markClient (Json.obj [("query", Json.str "SELECT 1"),
      ("limit", Json.num 0)]) =
      Except.ok (contentEnvelope
        "Errore nell\x27esecuzione della query: EXEC:SELECT 1") ∧
    finalQuery "SELECT 1" (Json.num 0) = "SELECT 1" ∧
    "SELECT 1" ≠ "SELECT 1 LIMIT 0" :=
  ⟨rfl, rfl, rfl, by decide⟩

/-- Claim C1 (amended): if the upper-cased query string does not contain
`"LIMIT"` and the `limit` argument (defaulting to 100) is truthy, the
query executed against the client is the original query with
`" LIMIT <limit>"` appended; if the upper-cased query does contain
`"LIMIT"`, the executed query is unchanged. -/
theorem query_limit_append (c : Client) (kvs : List (String × Json))
    (s : String) (lv : Json)
    (hq : jlookup kvs "query" = some (Json.str s))
    (hl : (jlookup kvs "limit").getD (Json.num 100) = lv) :
    (containsSub (pyUpperStr s) "LIMIT" = false → truthy lv = true →
      queryBigquery c (Json.obj kvs) =
        Except.ok (queryOutcome c (s ++ " LIMIT " ++ pyStr lv)) ∧
      finalQuery s lv = s ++ " LIMIT " ++ pyStr lv) ∧
    (containsSub (pyUpperStr s) "LIMIT" = true →
      queryBigquery c (Json.obj kvs) = Except.ok (queryOutcome c s) ∧
      finalQuery s lv = s) := by
  have hqb : queryBigquery c (Json.obj kvs) =
      Except.ok (queryOutcome c (finalQuery s lv)) := by
    unfold queryBigquery
    rw [jgetD_obj, jgetD_obj, hq, hl]
    simp only [Option.getD_some, Bind.bind, Except.bind, pure, Except.pure]
    rfl
  constructor
  · intro hc ht
    have hf : finalQuery s lv = s ++ " LIMIT " ++ pyStr lv := by
      unfold finalQuery
      rw [hc, ht]
      simp
    exact ⟨by rw [← hf]; exact hqb, hf⟩
  · intro hc
    have hf : finalQuery s lv = s := by
      unfold finalQuery
      rw [hc]
      simp
    exact ⟨by rw [← hf]; exact hqb, hf⟩

/-- Claim C1 (witness): `"SELECT 1"` with no explicit limit gets
`" LIMIT 100"` appended; `"SELECT 1 LIMIT 5"` is executed unchanged. -/
theorem query_limit_append_witness :
    queryBigquery okClient (Json.obj [("query", Json.str "SELECT 1")]) =
      Except.ok (queryOutcome okClient
        ("SELECT 1" ++ " LIMIT " ++ pyStr (Json.num 100))) ∧
    queryBigquery okClient (Json.obj
      [("query", Json.str "SELECT 1 LIMIT 5")]) =
      Except.ok (queryOutcome okClient "SELECT 1 LIMIT 5") :=
  ⟨((query_limit_append okClient [("query", Json.str "SELECT 1")]
      "SELECT 1" (Json.num 100) rfl rfl).1 rfl rfl).1,
   ((query_limit_append okClient [("query", Json.str "SELECT 1 LIMIT 5")]
      "SELECT 1 LIMIT 5" (Json.num 100) rfl rfl).2 rfl).1⟩

/-- Claim C2 (counterexample): a `tools/call` that reaches the
`query_bigquery` branch with a non-mapping `arguments` value (here the
number 5) makes `args.get` raise before the branch's `try` block, and the
call returns a JSON-RPC error (`-32603`), not a Content Envelope. -/
theorem tool_fault_escape_cex :
    handleMcpRequest okClient (Json.obj [("method", Json.str "tools/call"),
      ("id", Json.num 1),
      ("params", Json.obj [("name", Json.str "query_bigquery"),
        ("arguments", Json.num 5)])]) =
      Except.ok (errResp (Json.num 1) (-32603)
        "Errore interno del server: AttributeError: get") ∧
    hasKey (errResp (Json.num 1) (-32603)
      "Errore interno del server: AttributeError: get") "error" = true ∧
    hasKey (errResp (Json.num 1) (-32603)
      "Errore interno del server: AttributeError: get") "content" = false :=
  ⟨rfl, rfl, rfl⟩

/-- Claim C2 (amended): any fault raised inside a tool branch's `try`
block (in particular every warehouse-client fault, such as fetching a
nonexistent table in `describe_table`) is caught within the branch, and
whenever a tool branch returns normally its value is a Content Envelope
`{content: [{type: "text", text: ...}]}`; only argument-extraction faults
(a non-mapping `arguments`), which occur before the `try`, escape to the
dispatcher's top-level handler. -/
theorem tool_faults_enveloped (c : Client) (args : Json) :
    (∀ j, queryBigquery c args = Except.ok j → ∃ t, j = contentEnvelope t) ∧
    (∃ t, listDatasetsImpl c = contentEnvelope t) ∧
    (∀ j, listTables c args = Except.ok j → ∃ t, j = contentEnvelope t) ∧
    (∀ j, describeTable c args = Except.ok j → ∃ t, j = contentEnvelope t) ∧
    (∀ did tid e, describeAttempt c did tid = Except.error e →
      describeOutcome c did tid =
        contentEnvelope ("Errore nel descrivere la tabella: " ++ e)) := by
  refine ⟨?_, listDatasetsImpl_env c, ?_, ?_, ?_⟩
  · intro j hj
    unfold queryBigquery at hj
    cases h1 : jgetD args "query" (Json.str "") with
    | error e =>
      rw [h1] at hj
      simp [Bind.bind, Except.bind] at hj
    | ok qv =>
      rw [h1] at hj
      cases h2 : jgetD args "limit" (Json.num 100) with
      | error e =>
        rw [h2] at hj
        simp [Bind.bind, Except.bind] at hj
      | ok lv =>
        rw [h2] at hj
        simp only [Bind.bind, Except.bind, pure, Except.pure,
          Except.ok.injEq] at hj
        obtain ⟨t, ht⟩ := queryTry_env c qv lv
        exact ⟨t, by rw [← hj, ht]⟩
  · intro j hj
    unfold listTables at hj
    cases h1 : jget args "dataset_id" with
    | error e =>
      rw [h1] at hj
      simp [Bind.bind, Except.bind] at hj
    | ok did =>
      rw [h1] at hj
      simp only [Bind.bind, Except.bind, pure, Except.pure,
        Except.ok.injEq] at hj
      obtain ⟨t, ht⟩ := listTablesOutcome_env c did
      exact ⟨t, by rw [← hj, ht]⟩
  · intro j hj
    unfold describeTable at hj
    cases h1 : jget args "dataset_id" with
    | error e =>
      rw [h1] at hj
      simp [Bind.bind, Except.bind] at hj
    | ok did =>
      rw [h1] at hj
      cases h2 : jget args "table_id" with
      | error e =>
        rw [h2] at hj
        simp [Bind.bind, Except.bind] at hj
      | ok tid =>
        rw [h2] at hj
        simp only [Bind.bind, Except.bind, pure, Except.pure,
          Except.ok.injEq] at hj
        obtain ⟨t, ht⟩ := describeOutcome_env c did tid
        exact ⟨t, by rw [← hj, ht]⟩
  · intro did tid e he
    unfold describeOutcome
    rw [he]

/-- Claim C2 (witness): `describe_table` on a table whose fetch fails with
`NotFound` returns the successful envelope carrying the error text. -/
theorem tool_faults_enveloped_witness :
    describeOutcome okClient (Json.str "d") (Json.str "missing") =
      contentEnvelope ("Errore nel descrivere la tabella: " ++ "NotFound") :=
  (tool_faults_enveloped okClient (Json.obj [])).2.2.2.2
    (Json.str "d") (Json.str "missing") "NotFound" rfl

/-- Claim C3: for every request object whose `method` is none of
`initialize`, `tools/list`, `tools/call`, the handler returns a response
with no `result` field, an error object with code `-32601` whose message
names the unrecognized method, and the request id echoed. -/
theorem unknown_method_check (c : Client) (kvs : List (String × Json))
    (m : Json) (hm : (jlookup kvs "method").getD Json.null = m)
    (h1 : m ≠ Json.str "initialize") (h2 : m ≠ Json.str "tools/list")
    (h3 : m ≠ Json.str "tools/call") :
    handleMcpRequest c (Json.obj kvs) =
      Except.ok (errResp ((jlookup kvs "id").getD Json.null) (-32601)
        ("Metodo non trovato: " ++ pyStr m)) ∧
    hasKey (errResp ((jlookup kvs "id").getD Json.null) (-32601)
      ("Metodo non trovato: " ++ pyStr m)) "result" = false ∧
    errCodeOf (errResp ((jlookup kvs "id").getD Json.null) (-32601)
      ("Metodo non trovato: " ++ pyStr m)) = some (Json.num (-32601)) ∧
    errMsgOf (errResp ((jlookup kvs "id").getD Json.null) (-32601)
      ("Metodo non trovato: " ++ pyStr m)) =
      some (Json.str ("Metodo non trovato: " ++ pyStr m)) ∧
    getKey (errResp ((jlookup kvs "id").getD Json.null) (-32601)
      ("Metodo non trovato: " ++ pyStr m)) "id" =
      some ((jlookup kvs "id").getD Json.null) := by
  have hbody : handleBody c (Json.obj kvs) =
      Except.ok (errResp ((jlookup kvs "id").getD Json.null) (-32601)
        ("Metodo non trovato: " ++ pyStr m)) := by
    unfold handleBody
    rw [jget_obj, jgetD_obj, jget_obj]
    simp only [Bind.bind, Except.bind]
    rw [hm, json_beq_str_false h1, json_beq_str_false h2,
      json_beq_str_false h3]
    simp only [Bool.false_eq_true, if_false, pure, Except.pure]
  refine ⟨?_, rfl, rfl, rfl, rfl⟩
  unfold handleMcpRequest
  rw [hbody]

/-- Claim C3 (witness): method `"foo/bar"` with id 7 yields the `-32601`
error response echoing id 7. -/
theorem unknown_method_check_witness :
    handleMcpRequest okClient (Json.obj [("method", Json.str "foo/bar"),
      ("id", Json.num 7)]) =
      Except.ok (errResp (Json.num 7) (-32601)
        ("Metodo non trovato: " ++ pyStr (Json.str "foo/bar"))) :=
  (unknown_method_check okClient
    [("method", Json.str "foo/bar"), ("id", Json.num 7)]
    (Json.str "foo/bar") rfl
    (by intro h; injection h with h2; exact absurd h2 (by decide))
    (by intro h; injection h with h2; exact absurd h2 (by decide))
    (by intro h; injection h with h2; exact absurd h2 (by decide))).1

/-- Claim C4: for every request object the handler returns a response
carrying exactly one of `result`/`error`, with the request id echoed; a
fault during dispatch is caught and becomes a `-32603` error carrying the
fault text, with the same id (a non-object request, whose id is not
readable, is instead re-raised and handled by the SSE layer with a null
id). -/
theorem handle_envelope_invariant (c : Client) (kvs : List (String × Json)) :
    ∃ r, handleMcpRequest c (Json.obj kvs) = Except.ok r ∧
      ((hasKey r "result" = true ∧ hasKey r "error" = false) ∨
       (hasKey r "error" = true ∧ hasKey r "result" = false)) ∧
      getKey r "id" = some ((jlookup kvs "id").getD Json.null) ∧
      (∀ e, handleBody c (Json.obj kvs) = Except.error e →
        r = errResp ((jlookup kvs "id").getD Json.null) (-32603)
          ("Errore interno del server: " ++ e)) := by
  cases hb : handleBody c (Json.obj kvs) with
  | ok r0 =>
    have hm : handleMcpRequest c (Json.obj kvs) = Except.ok r0 := by
      unfold handleMcpRequest
      rw [hb]
    rcases handleBody_ok_shape c kvs r0 hb with ⟨res, hr⟩ | ⟨msg, hr⟩ <;>
      subst hr
    · exact ⟨_, hm, Or.inl ⟨rfl, rfl⟩, rfl,
        fun e he => Except.noConfusion he⟩
    · exact ⟨_, hm, Or.inr ⟨rfl, rfl⟩, rfl,
        fun e he => Except.noConfusion he⟩
  | error e0 =>
    have hm : handleMcpRequest c (Json.obj kvs) =
        Except.ok (errResp ((jlookup kvs "id").getD Json.null) (-32603)
          ("Errore interno del server: " ++ e0)) := by
      unfold handleMcpRequest
      rw [hb, jget_obj]
    exact ⟨_, hm, Or.inr ⟨rfl, rfl⟩, rfl,
      fun e he => by
        injection he with h2
        rw [h2]⟩

/-- Claim C4 (witness): a `tools/call` with non-object `params` faults
during dispatch; the handler returns the `-32603` error with id 9. -/
theorem handle_envelope_invariant_witness :
    ∃ r, handleMcpRequest okClient (Json.obj
      [("method", Json.str "tools/call"), ("params", Json.num 0),
       ("id", Json.num 9)]) = Except.ok r ∧
      r = errResp (Json.num 9) (-32603)
        "Errore interno del server: AttributeError: get" := by
  obtain ⟨r, h1, _, _, h4⟩ := handle_envelope_invariant okClient
    [("method", Json.str "tools/call"), ("params", Json.num 0),
     ("id", Json.num 9)]
  exact ⟨r, h1, h4 "AttributeError: get" rfl⟩

/-- Claim C5: every `tools/list` request returns exactly the four static
tool descriptors (names `query_bigquery`, `list_datasets`, `list_tables`,
`describe_table`; required-argument lists `["query"]`, `[]`,
`["dataset_id"]`, `["dataset_id","table_id"]`), whatever the params, and
the response is independent of the client handle (the only state). -/
theorem tools_list_static (c c2 : Client) (kvs : List (String × Json))
    (hm : (jlookup kvs "method").getD Json.null = Json.str "tools/list") :
    handleMcpRequest c (Json.obj kvs) =
      Except.ok (okResp ((jlookup kvs "id").getD Json.null)
        toolsListResult) ∧
    handleMcpRequest c2 (Json.obj kvs) = handleMcpRequest c (Json.obj kvs) ∧
    toolDescriptors.map (fun d => getKey d "name") =
      [some (Json.str "query_bigquery"), some (Json.str "list_datasets"),
       some (Json.str "list_tables"), some (Json.str "describe_table")] ∧
    toolDescriptors.map (fun d =>
        ((getKey d "inputSchema").bind (fun s => getKey s "required")).getD
          (Json.arr [])) =
      [Json.arr [Json.str "query"], Json.arr [],
       Json.arr [Json.str "dataset_id"],
       Json.arr [Json.str "dataset_id", Json.str "table_id"]] := by
  have key : ∀ c3 : Client, handleMcpRequest c3 (Json.obj kvs) =
      Except.ok (okResp ((jlookup kvs "id").getD Json.null)
        toolsListResult) := by
    intro c3
    have hbody : handleBody c3 (Json.obj kvs) =
        Except.ok (okResp ((jlookup kvs "id").getD Json.null)
          toolsListResult) := by
      unfold handleBody
      rw [jget_obj, jgetD_obj, jget_obj]
      simp only [Bind.bind, Except.bind]
      rw [hm]
      rw [show (Json.str "tools/list" == Json.str "initialize") = false
        from rfl]
      rw [show (Json.str "tools/list" == Json.str "tools/list") = true
        from rfl]
      simp only [Bool.false_eq_true, if_false, if_true, pure, Except.pure]
    unfold handleMcpRequest
    rw [hbody]
  exact ⟨key c, (key c2).trans (key c).symm, rfl, rfl⟩

/-- Claim C5 (witness): a concrete `tools/list` request returns the
static descriptor list with id 2 echoed. -/
theorem tools_list_static_witness :
    handleMcpRequest okClient (Json.obj [("method", Json.str "tools/list"),
      ("id", Json.num 2)]) =
      Except.ok (okResp (Json.num 2) toolsListResult) :=
  (tools_list_static okClient markClient
    [("method", Json.str "tools/list"), ("id", Json.num 2)] rfl).1

/-- Claim C6: when `list_datasets` succeeds, every dataset yields exactly
one entry — the extended record when its metadata fetch succeeds, the
reduced record with an `error` field when it faults — and the whole call
returns the envelope over all entries (a per-dataset fault never raises
or drops the dataset). -/
theorem list_datasets_per_item (c : Client) (ds : List DatasetRef)
    (h : c.list_datasets = Except.ok ds) :
    (datasetInfo c ds).length = ds.length ∧
    listDatasetsImpl c = contentEnvelope ("Dataset trovati: " ++
      toString (datasetInfo c ds).length ++ "\n\n" ++
      dumps (Json.arr (datasetInfo c ds))) ∧
    ∀ d ∈ ds,
      (∀ meta, c.get_dataset d.dataset_id = Except.ok meta →
        datasetEntry c d = extendedRecord d meta) ∧
      (∀ e, c.get_dataset d.dataset_id = Except.error e →
        datasetEntry c d = reducedRecord d e ∧
        getKey (datasetEntry c d) "error" =
          some (Json.str ("Impossibile ottenere dettagli: " ++ e))) := by
  refine ⟨by simp [datasetInfo], ?_, ?_⟩
  · unfold listDatasetsImpl
    rw [h]
  · intro d _
    constructor
    · intro meta hm
      unfold datasetEntry
      rw [hm]
    · intro e he
      unfold datasetEntry
      rw [he]
      exact ⟨rfl, rfl⟩

/-- Claim C6 (witness): one dataset whose metadata fetch fails still
yields exactly one entry, carrying the `error` field. -/
theorem list_datasets_per_item_witness :
    (datasetInfo oneDsClient [⟨"ds1", "proj"⟩]).length = 1 ∧
    getKey (datasetEntry oneDsClient ⟨"ds1", "proj"⟩) "error" =
      some (Json.str ("Impossibile ottenere dettagli: " ++ "boom")) := by
  obtain ⟨hlen, _, hitems⟩ := list_datasets_per_item oneDsClient
    [⟨"ds1", "proj"⟩] rfl
  exact ⟨hlen, ((hitems ⟨"ds1", "proj"⟩ (by simp)).2 "boom" rfl).2⟩

/-- Claim C7 (counterexample): calls with missing required keys still
execute against the warehouse client — `query_bigquery` with no `query`
runs `" LIMIT 100"`, `list_tables` and `describe_table` with no
`dataset_id` call `client.dataset(None)` (the marker client records what
reaches it) — contradicting the claim that such calls do not proceed. -/
theorem missing_args_cex :
    queryBigquery markClient (Json.obj []) =
      Except.ok (contentEnvelope
        "Errore nell\x27esecuzione della query: EXEC: LIMIT 100") ∧
    listTables markClient (Json.obj []) =
      Except.ok (contentEnvelope
        "Errore nel recuperare le tabelle: EXEC:None") ∧
    describeTable markClient (Json.obj []) =
      Except.ok (contentEnvelope
        "Errore nel descrivere la tabella: EXEC:None") :=
  ⟨rfl, rfl, rfl⟩

/-- Claim C7 (amended): required keys are not validated for presence; a
missing key is defaulted (`""` for `query`, `None` for `dataset_id` and
`table_id`) and execution proceeds against the warehouse client with the
defaulted value. -/
theorem missing_args_default (c : Client) (kvs : List (String × Json)) :
    (jlookup kvs "query" = none →
      queryBigquery c (Json.obj kvs) =
        Except.ok (queryTry c (Json.str "")
          ((jlookup kvs "limit").getD (Json.num 100)))) ∧
    (jlookup kvs "dataset_id" = none →
      listTables c (Json.obj kvs) =
        Except.ok (listTablesOutcome c Json.null) ∧
      describeTable c (Json.obj kvs) =
        Except.ok (describeOutcome c Json.null
          ((jlookup kvs "table_id").getD Json.null))) := by
  constructor
  · intro hq
    unfold queryBigquery
    rw [jgetD_obj, jgetD_obj, hq]
    simp only [Option.getD_none, Bind.bind, Except.bind, pure, Except.pure]
  · intro hd
    constructor
    · unfold listTables
      rw [jget_obj, hd]
      simp only [Option.getD_none, Bind.bind, Except.bind, pure,
        Except.pure]
    · unfold describeTable
      rw [jget_obj, jget_obj, hd]
      simp only [Option.getD_none, Bind.bind, Except.bind, pure,
        Except.pure]

/-- Claim C7 (witness): with empty arguments each tool runs with the
defaulted values. -/
theorem missing_args_default_witness :
    queryBigquery okClient (Json.obj []) =
      Except.ok (queryTry okClient (Json.str "") (Json.num 100)) ∧
    listTables okClient (Json.obj []) =
      Except.ok (listTablesOutcome okClient Json.null) ∧
    describeTable okClient (Json.obj []) =
      Except.ok (describeOutcome okClient Json.null Json.null) := by
  obtain ⟨w1, w2⟩ := missing_args_default okClient []
  obtain ⟨w2a, w2b⟩ := w2 rfl
  exact ⟨w1 rfl, w2a, w2b⟩

/-- Claim C8: an empty `POST /sse` body yields exactly one SSE frame,
`data: {"type": "connected"}` followed by a blank line, and the stream
ends. -/
theorem sse_empty_body (c : Client) :
    eventStream c Body.empty =
      ["data: \x7b\"type\": \"connected\"\x7d\n\n"] ∧
    (eventStream c Body.empty).length = 1 ∧
    dumps (Json.obj [("type", Json.str "connected")]) =
      "\x7b\"type\": \"connected\"\x7d" :=
  ⟨rfl, rfl, rfl⟩

/-- Claim C9: when the `limit` argument is present but falsy (e.g. 0), no
`LIMIT` clause is appended and the query is executed exactly as
supplied. -/
theorem falsy_limit (c : Client) (kvs : List (String × Json)) (s : String)
    (lv : Json) (hq : jlookup kvs "query" = some (Json.str s))
    (hl : jlookup kvs "limit" = some lv) (hf : truthy lv = false) :
    finalQuery s lv = s ∧
    queryBigquery c (Json.obj kvs) = Except.ok (queryOutcome c s) := by
  have hfq : finalQuery s lv = s := by
    unfold finalQuery
    rw [hf]
    simp
  refine ⟨hfq, ?_⟩
  unfold queryBigquery
  rw [jgetD_obj, jgetD_obj, hq, hl]
  simp only [Option.getD_some, Bind.bind, Except.bind, pure, Except.pure]
  rw [show queryTry c (Json.str s) lv = queryOutcome c (finalQuery s lv)
    from rfl, hfq]

/-- Claim C9 (witness): `limit = 0` leaves `"SELECT 10"` unchanged and
the client receives exactly that string. -/
theorem falsy_limit_witness :
    finalQuery "SELECT 10" (Json.num 0) = "SELECT 10" ∧
    queryBigquery markClient (Json.obj [("query", Json.str "SELECT 10"),
      ("limit", Json.num 0)]) =
      Except.ok (queryOutcome markClient "SELECT 10") :=
  falsy_limit markClient [("query", Json.str "SELECT 10"),
    ("limit", Json.num 0)] "SELECT 10" (Json.num 0) rfl rfl rfl

/-- Claim C10: every `POST /sse` body yields exactly one `data:` frame;
an invalid body or a fault from the handler yields the frame whose
payload is the JSON-RPC error with code `-32603` and id null. -/
theorem sse_single_frame (c : Client) (b : Body) :
    (eventStream c b).length = 1 ∧
    (∀ e, b = Body.invalid e → eventStream c b = [sseErrorFrame e]) ∧
    (∀ j e, b = Body.parsed j → handleMcpRequest c j = Except.error e →
      eventStream c b = [sseErrorFrame e]) ∧
    (∀ e, ∃ payload, sseErrorFrame e = "data: " ++ dumps payload ++ "\n\n" ∧
      getKey payload "id" = some Json.null ∧
      errCodeOf payload = some (Json.num (-32603)) ∧
      errMsgOf payload =
        some (Json.str ("Errore del server SSE: " ++ e))) := by
  refine ⟨?_, ?_, ?_, ?_⟩
  · cases b with
    | empty => rfl
    | invalid e => rfl
    | parsed j =>
      cases hh : handleMcpRequest c j with
      | ok resp => simp [eventStream, hh]
      | error e => simp [eventStream, hh]
  · intro e he
    subst he
    rfl
  · intro j e hb hh
    subst hb
    simp [eventStream, hh]
  · intro e
    exact ⟨Json.obj [("jsonrpc", Json.str "2.0"), ("id", Json.null),
      ("error", Json.obj [("code", Json.num (-32603)),
        ("message", Json.str ("Errore del server SSE: " ++ e))])],
      rfl, rfl, rfl, rfl⟩

/-- Claim C10 (witness): an invalid body and a non-object body each yield
exactly one frame, the `-32603`/null-id error frame. -/
theorem sse_single_frame_witness :
    eventStream okClient (Body.invalid "bad") = [sseErrorFrame "bad"] ∧
    eventStream okClient (Body.parsed (Json.num 5)) =
      [sseErrorFrame "AttributeError: get"] ∧
    (eventStream okClient (Body.parsed (Json.num 5))).length = 1 :=
  ⟨(sse_single_frame okClient (Body.invalid "bad")).2.1 "bad" rfl,
   (sse_single_frame okClient (Body.parsed (Json.num 5))).2.2.1
     (Json.num 5) "AttributeError: get" rfl rfl,
   (sse_single_frame okClient (Body.parsed (Json.num 5))).1⟩
